import Mathlib

/-!
Shallow embedding of the p0 rendering-engine core: device context, presentation
surface (swapchain) lifetime and reconfiguration, texture/view ownership, and
the engine event handlers.  Definitions are translated from the Rust sources
(src/engine.rs, src/swapchain.rs, src/texture.rs, src/render_resource.rs,
src/error.rs).  External collaborators (winit windows, wgpu surfaces and GPU
handles) are represented by opaque identifiers and by explicit environments:
weak-reference resolution becomes an `Option`-valued lookup, fallible driver
calls become `Except` parameters, and a Rust panic is an explicit outcome.
-/

namespace P0

/-- `winit::dpi::PhysicalSize<u32>`: a window extent in physical pixels. -/
structure PhysicalSize where
  width : Nat
  height : Nat
deriving DecidableEq, Repr

/-- `wgpu::Extent3d`: a texture extent. -/
structure Extent3d where
  width : Nat
  height : Nat
  depthOrArrayLayers : Nat
deriving DecidableEq, Repr

/-- `wgpu::TextureFormat`, restricted to the formats this development exercises. -/
inductive TextureFormat where
  | Rgba8Unorm
  | Rgba8UnormSrgb
  | Bgra8Unorm
  | Bgra8UnormSrgb
  | Rgba16Float
deriving DecidableEq, Repr

/-- `wgpu::TextureFormat::add_srgb_suffix`: the sRGB-aliased variant of a format
(identity on formats that are already sRGB or have no sRGB alias). -/
def TextureFormat.add_srgb_suffix : TextureFormat → TextureFormat
  | .Rgba8Unorm => .Rgba8UnormSrgb
  | .Bgra8Unorm => .Bgra8UnormSrgb
  | f => f

/-- Bytes per texel of each modelled format (as in the wgpu format tables). -/
def TextureFormat.bytesPerTexel : TextureFormat → Nat
  | .Rgba8Unorm => 4
  | .Rgba8UnormSrgb => 4
  | .Bgra8Unorm => 4
  | .Bgra8UnormSrgb => 4
  | .Rgba16Float => 8

/-- `wgpu::TextureFormat::theoretical_memory_footprint` for the modelled
(uncompressed) formats: texel count times bytes per texel.  This is library
code outside the repository; the model keeps its purity: it reads only the
format and the extent, touching no device state. -/
def TextureFormat.theoretical_memory_footprint (f : TextureFormat) (e : Extent3d) : Nat :=
  f.bytesPerTexel * e.width * e.height * e.depthOrArrayLayers

/-- `wgpu::PresentMode` (the variants this development needs). -/
inductive PresentMode where
  | AutoVsync
  | AutoNoVsync
  | Fifo
deriving DecidableEq, Repr

/-- `wgpu::CompositeAlphaMode` (the variants this development needs). -/
inductive CompositeAlphaMode where
  | Auto
  | Opaque
deriving DecidableEq, Repr

/-- `wgpu::TextureUsages` bit for COPY_DST. -/
def TextureUsages.COPY_DST : Nat := 2

/-- `wgpu::TextureUsages` bit for TEXTURE_BINDING. -/
def TextureUsages.TEXTURE_BINDING : Nat := 4

/-- `wgpu::TextureUsages` bit for RENDER_ATTACHMENT. -/
def TextureUsages.RENDER_ATTACHMENT : Nat := 16

/-- `DeviceError` (src/error.rs). -/
inductive DeviceError where
  | OutOfMemory
  | Lost
  | Unexpected
  | Unavailable (reason : String)
deriving DecidableEq, Repr

/-- Modelled from the spec: `ResourceError` is referenced by src/texture.rs as
`crate::error::ResourceError` but its declaration is not among the provided
sources; the spec's error taxonomy names `Orphan` (a view's resource is no
longer resolvable) as the resource-level error condition. -/
inductive ResourceError where
  | Orphan
deriving DecidableEq, Repr

/-- Outcome of running a piece of Rust code: a normal value, a recoverable
`Err`, or a panic (abnormal process termination). -/
inductive RustOutcome (α : Type) where
  | ok (value : α)
  | err (error : DeviceError)
  | fatal (msg : String)
deriving DecidableEq, Repr

/-! ## SwapChain (src/swapchain.rs) -/

/-- `SwapChain`: the owned surface handle (opaque id), the chosen color format,
the weak reference to the window (an id resolved through an environment, never
an owning pointer), and the last-configured size. -/
structure SwapChain where
  surface : Nat
  surface_format : TextureFormat
  window : Nat
  size : PhysicalSize
deriving DecidableEq, Repr

/-- `wgpu::SurfaceConfiguration` as built by `SwapChain::configure_surface`. -/
structure SurfaceConfiguration where
  usage : Nat
  format : TextureFormat
  view_formats : List TextureFormat
  alpha_mode : CompositeAlphaMode
  width : Nat
  height : Nat
  desired_maximum_frame_latency : Nat
  present_mode : PresentMode
deriving DecidableEq, Repr

/-- `SwapChain::new`.  `surfaceResult` is the outcome of
`instance.create_surface(window)` (a surface handle, or an error rendered to a
message); `formats` is `surface.get_capabilities(&adapter).formats`; `inner` is
`window.inner_size()`.  A surface-creation error is mapped to
`DeviceError::Unavailable`; `cap.formats[0]` on an empty capability list is a
Rust index-out-of-bounds panic; on success the window's current extent is
recorded as `size` and the surface is not configured. -/
def SwapChain.new (surfaceResult : Except String Nat) (formats : List TextureFormat)
    (windowId : Nat) (inner : PhysicalSize) : RustOutcome SwapChain :=
  match surfaceResult with
  | .error e => .err (.Unavailable ("Failed to create surface " ++ e))
  | .ok s =>
    match formats with
    | [] => .fatal "index out of bounds: the len is 0 but the index is 0"
    | f :: _ => .ok { surface := s, surface_format := f, window := windowId, size := inner }

/-- `SwapChain::configure_surface`: builds the fixed `wgpu::SurfaceConfiguration`,
hands it to `surface.configure`, and records `self.size = extent`.  Returns the
updated swapchain together with the configuration passed to the driver. -/
def SwapChain.configure_surface (sc : SwapChain) (extent : PhysicalSize) :
    SwapChain × SurfaceConfiguration :=
  ({ sc with size := extent },
   { usage := TextureUsages.RENDER_ATTACHMENT
     format := sc.surface_format
     view_formats := [sc.surface_format.add_srgb_suffix]
     alpha_mode := .Auto
     width := extent.width
     height := extent.height
     desired_maximum_frame_latency := 2
     present_mode := .AutoVsync })

/-- `SwapChain::need_configuration`.  `upgrade` is the result of
`self.window.upgrade()`: `some inner` when the window is still alive with live
extent `inner`, `none` once it has been dropped. -/
def SwapChain.need_configuration (sc : SwapChain) (upgrade : Option PhysicalSize) : Bool :=
  match upgrade with
  | some inner => sc.size != inner
  | none => false

/-- `SwapChain::is_valid`, with the body exactly as written in the source
(which is character-for-character the body of `need_configuration`). -/
def SwapChain.is_valid (sc : SwapChain) (upgrade : Option PhysicalSize) : Bool :=
  match upgrade with
  | some inner => sc.size != inner
  | none => false

/-! ## Resource and view model (src/render_resource.rs, src/texture.rs) -/

/-- `ResourceFlag::NONE` (bitflags over u32). -/
def ResourceFlag.NONE : Nat := 0

/-- `ResourceFlag::ALLOW_UAV`. -/
def ResourceFlag.ALLOW_UAV : Nat := 1

/-- `ResourceFlag::RENDER_TARGET`. -/
def ResourceFlag.RENDER_TARGET : Nat := 2

/-- `ResourceInfo` (src/render_resource.rs). -/
structure ResourceInfo where
  flags : Nat
  request_size : Nat
  allocation_size : Nat
deriving DecidableEq, Repr

/-- `TextureInfo` (src/render_resource.rs). -/
structure TextureInfo where
  base_info : ResourceInfo
  extent : Extent3d
  format : TextureFormat
deriving DecidableEq, Repr

/-- `TextureCreateInfo` (src/render_resource.rs). -/
structure TextureCreateInfo where
  extent : Extent3d
  format : TextureFormat
  num_mips : Nat
deriving DecidableEq, Repr

/-- `TextureCreateInfo::request_size`: delegates to the format's theoretical
memory footprint of the extent — no device interaction. -/
def TextureCreateInfo.request_size (ci : TextureCreateInfo) : Nat :=
  ci.format.theoretical_memory_footprint ci.extent

/-- `TextureViewCreateInfo` (src/render_resource.rs). -/
structure TextureViewCreateInfo where
  base_mip : Nat
  num_mips : Nat
  base_slice : Nat
  num_slices : Nat
deriving DecidableEq, Repr

/-- `Texture` (src/texture.rs): the recorded info plus the GPU texture handle
(opaque id for `wgpu::Texture`). -/
structure Texture where
  info : TextureInfo
  texture : Nat
deriving DecidableEq, Repr

/-- `Texture::new` (src/texture.rs): the device allocation is opaque (the
fresh GPU handle is a parameter); the recorded info is exactly as in the
source: flags NONE, `request_size` from the create-info, `allocation_size` 0,
and the create-info's extent and format. -/
def Texture.new (ci : TextureCreateInfo) (_name : String) (textureHandle : Nat) : Texture :=
  { texture := textureHandle
    info := { base_info := { flags := ResourceFlag.NONE
                             request_size := ci.request_size
                             allocation_size := 0 }
              extent := ci.extent
              format := ci.format } }

/-- `TextureView` (src/texture.rs): a weak (non-owning) parent reference,
modelled as an id into a heap of live textures, plus the GPU view handle. -/
structure TextureView where
  parent : Nat
  view : Nat
deriving DecidableEq, Repr

/-- `Texture::create_view` (src/texture.rs): produces a view whose `parent` is
a downgraded (weak) reference to the texture it was created from. -/
def Texture.create_view (selfId : Nat) (_t : Texture) (_vi : TextureViewCreateInfo)
    (viewHandle : Nat) : TextureView :=
  { parent := selfId, view := viewHandle }

/-- `TextureView::resource` (the `RenderResourceView` impl in src/texture.rs).
`heap` models `Weak::upgrade`: `heap v.parent` is `some` texture while a
strong reference keeps the parent alive and `none` after the last strong
reference has been dropped.  A live parent yields `Ok` with a reference to the
parent resource; a dead one yields `Err(ResourceError::Orphan)`. -/
def TextureView.resource (v : TextureView) (heap : Nat → Option Texture) :
    Except ResourceError Texture :=
  match heap v.parent with
  | some t => .ok t
  | none => .error .Orphan

/-! ## Engine (src/engine.rs) -/

/-- A winit window: opaque id plus its live `inner_size`. -/
structure Window where
  id : Nat
  inner : PhysicalSize
deriving DecidableEq, Repr

/-- `Engine` (src/engine.rs): the render device (opaque handle), the optional
window, and the optional swapchain. -/
structure Engine where
  render_device : Nat
  window : Option Window
  swapchain : Option SwapChain
deriving DecidableEq, Repr

/-- Observable side effects of the engine handlers: GPU submission,
presentation, redraw requests, loop exit, logging, and surface configuration. -/
inductive Effect where
  | submit
  | prePresentNotify
  | present
  | requestRedraw
  | exitApp
  | logInfo (msg : String)
  | logError (e : DeviceError)
  | surfaceConfigure (cfg : SurfaceConfiguration)
deriving DecidableEq, Repr

/-- `Engine::render` (src/engine.rs).  `acquire` is the outcome of
`surface.get_current_texture()`; the source calls `.expect(...)` on it, so an
acquisition failure is a panic, not an `Err`.  Missing window or swapchain
short-circuits with `Err(DeviceError::Unexpected)` before any GPU work.  The
source reads but never writes any `Engine` field, so the embedding returns
only the effect list; on the successful path the command buffer is submitted,
the window is notified and the surface texture presented. -/
def Engine.render (e : Engine) (acquire : Except String Unit) : RustOutcome (List Effect) :=
  match e.window with
  | none => .err .Unexpected
  | some _ =>
    match e.swapchain with
    | none => .err .Unexpected
    | some _ =>
      match acquire with
      | .error _ => .fatal "failed to acquire next swapchain texture"
      | .ok _ => .ok [.submit, .prePresentNotify, .present]

/-- The winit window events the engine handles. -/
inductive WindowEvent where
  | closeRequested
  | redrawRequested
  | resized (size : PhysicalSize)
  | other
deriving DecidableEq, Repr

/-- `Engine::window_event` (src/engine.rs).  Close requests log and exit the
loop; redraw requests run `render`, requesting the next redraw on success and
logging the error on failure (a panic inside `render` propagates); resize
events reconfigure the surface with the new extent when a swapchain exists and
do nothing otherwise; other events are ignored. -/
def Engine.window_event (e : Engine) (acquire : Except String Unit) (ev : WindowEvent) :
    RustOutcome (Engine × List Effect) :=
  match ev with
  | .closeRequested =>
    .ok (e, [.logInfo "Terminate the app as close button pressed", .exitApp])
  | .redrawRequested =>
    match e.render acquire with
    | .ok effs =>
      .ok (e, effs ++ (match e.window with | some _ => [.requestRedraw] | none => []))
    | .err error => .ok (e, [.logError error])
    | .fatal msg => .fatal msg
  | .resized size =>
    match e.swapchain with
    | some sc =>
      .ok ({ e with swapchain := some (sc.configure_surface size).fst },
           [.surfaceConfigure (sc.configure_surface size).snd])
    | none => .ok (e, [])
  | .other => .ok (e, [])

/-- `RETRY_COUNT` (src/engine.rs). -/
def RETRY_COUNT : Nat := 3

/-- The iterator of the retry loop in `Engine::resumed`.  The source writes
`for _ in [0..RETRY_COUNT]`: an array literal holding ONE `Range` value, so
the loop runs its body once per array element — exactly once. -/
def retryIterItems : List (Nat × Nat) := [(0, RETRY_COUNT)]

/-- One pass of the retry loop: each loop iteration calls `SwapChain::new`
once and breaks on the first success.  `results n` is the outcome of the
(n+1)-th creation call.  Returns the swapchain found (if any) together with
the number of creation attempts made. -/
def swapchainRetryGo (results : Nat → Except DeviceError SwapChain) :
    List (Nat × Nat) → Nat → Option SwapChain × Nat
  | [], n => (none, n)
  | _ :: rest, n =>
    match results n with
    | .ok sc => (some sc, n + 1)
    | .error _ => swapchainRetryGo results rest (n + 1)

/-- The retry loop of `Engine::resumed`, run over `retryIterItems`. -/
def swapchainRetryLoop (results : Nat → Except DeviceError SwapChain) :
    Option SwapChain × Nat :=
  swapchainRetryGo results retryIterItems 0

/-- `Engine::resumed` (src/engine.rs): creates the window, runs the swapchain
retry loop (the loop stores a successful creation in `self.swapchain`,
leaving any pre-existing value in place otherwise), then either configures
the stored swapchain for the window's extent, requests a redraw and stores
the window — or panics when no swapchain is stored. -/
def Engine.resumed (e : Engine) (results : Nat → Except DeviceError SwapChain)
    (newWindow : Window) : RustOutcome (Engine × List Effect) :=
  let installed : Option SwapChain :=
    match (swapchainRetryLoop results).fst with
    | some sc => some sc
    | none => e.swapchain
  match installed with
  | some sc =>
    .ok ({ e with swapchain := some (sc.configure_surface newWindow.inner).fst
                  window := some newWindow },
         [.surfaceConfigure (sc.configure_surface newWindow.inner).snd, .requestRedraw])
  | none => .fatal "Failed to create swapchain after 3 retry"

/-! ## Concrete sample inputs -/

/-- A sample swapchain, configured for an 800×600 window. -/
def scConfigured800 : SwapChain :=
  { surface := 7, surface_format := .Bgra8Unorm, window := 1, size := ⟨800, 600⟩ }

/-- An engine fresh out of `Engine::new`: device ready, no window, no swapchain. -/
def freshEngine : Engine := { render_device := 0, window := none, swapchain := none }

/-- An engine in the renderable state: window and swapchain both present. -/
def renderableEngine : Engine :=
  { render_device := 0, window := some ⟨1, ⟨800, 600⟩⟩, swapchain := some scConfigured800 }

/-- A surface-binding function that fails on the first two attempts and
succeeds on the third. -/
def failTwiceThenSucceed : Nat → Except DeviceError SwapChain :=
  fun n => if n < 2 then .error (.Unavailable "surface binding failed") else .ok scConfigured800

/-- A sample texture. -/
def liveTexture : Texture := Texture.new ⟨⟨4, 4, 1⟩, .Rgba8Unorm, 1⟩ "sample" 0

/-- A weak-reference environment in which no texture is alive. -/
def deadHeap : Nat → Option Texture := fun _ => none

/-- A weak-reference environment in which every id resolves to `liveTexture`. -/
def liveHeap : Nat → Option Texture := fun _ => some liveTexture

/-- A sample texture view. -/
def sampleView : TextureView := { parent := 5, view := 9 }

/-! ## Claim theorems -/

/-- Claim C1, evaluated on the code at the claim's own input: with a
surface-binding function that fails twice and then succeeds, `Engine::resumed`
makes exactly ONE creation attempt and panics — it does not reach a renderable
state on a third attempt, because `for _ in [0..RETRY_COUNT]` iterates over a
one-element array containing the range value, not over the range. -/
theorem c1_resumed_single_attempt_panics :
    Engine.resumed freshEngine failTwiceThenSucceed ⟨3, ⟨800, 600⟩⟩ =
      .fatal "Failed to create swapchain after 3 retry"
    ∧ (swapchainRetryLoop failTwiceThenSucceed).snd = 1 := by
  exact ⟨rfl, rfl⟩

/-- Claim C2, evaluated on the code at the failing input: with the swapchain
configured at 800×600, `is_valid` returns `true` while the live window extent
is 1024×768 (a mismatch) and `false` while the live extent equals the
configured one — the source body of `is_valid` is a copy of
`need_configuration`, inverting the documented validity test.  Only the
dead-window clause of the claim holds: an unresolvable window gives `false`. -/
theorem c2_is_valid_inverted :
    scConfigured800.is_valid (some ⟨1024, 768⟩) = true
    ∧ scConfigured800.is_valid (some ⟨800, 600⟩) = false
    ∧ scConfigured800.is_valid none = false := by
  exact ⟨rfl, rfl, rfl⟩

/-- Claim C3, evaluated on the code at the failing input: a renderable engine
receiving `RedrawRequested` while `get_current_texture` fails does not log and
continue — the `.expect(...)` inside `Engine::render` escalates the per-frame
acquisition failure to a panic before the frame-boundary error handling in
`window_event` can catch it. -/
theorem c3_acquire_failure_panics :
    Engine.window_event renderableEngine (.error "Timeout") .redrawRequested =
      .fatal "failed to acquire next swapchain texture" := rfl

/-- Claim C4: `need_configuration` is `true` iff the window still resolves and
its live extent differs from the last-configured extent; it is `false` once
the window is unresolvable; and after `configure_surface extent` it is `true`
iff the live extent differs from `extent` — in particular `false` until the
live extent moves away from the freshly configured one. -/
theorem c4_need_configuration_iff (sc : SwapChain) (live extent : PhysicalSize) :
    (sc.need_configuration (some live) = true ↔ sc.size ≠ live)
    ∧ sc.need_configuration none = false
    ∧ ((sc.configure_surface extent).fst.need_configuration (some live) = true ↔ extent ≠ live) := by
  refine ⟨?_, rfl, ?_⟩
  · simp [SwapChain.need_configuration]
  · simp [SwapChain.need_configuration, SwapChain.configure_surface]

/-- Claim C5: resolving a view's parent through the weak reference fails with
`Orphan` exactly when no strong reference keeps the parent alive (never a
stale handle), and yields a reference to the live parent otherwise. -/
theorem c5_resolve_orphan (v : TextureView) (heap : Nat → Option Texture) :
    (v.resource heap = .error .Orphan ↔ heap v.parent = none)
    ∧ (∀ t, heap v.parent = some t → v.resource heap = .ok t) := by
  cases hh : heap v.parent with
  | none =>
    refine ⟨?_, ?_⟩
    · simp [TextureView.resource, hh]
    · intro t ht
      simp [hh] at ht
  | some t =>
    refine ⟨?_, ?_⟩
    · simp [TextureView.resource, hh]
    · intro t' ht'
      injection ht' with h
      subst h
      simp [TextureView.resource, hh]

/-- Witness for C5: with no live texture, resolution yields `Orphan`; with the
parent alive, resolution yields that parent. -/
theorem c5_resolve_orphan_witness :
    sampleView.resource deadHeap = .error .Orphan
    ∧ sampleView.resource liveHeap = .ok liveTexture :=
  ⟨(c5_resolve_orphan sampleView deadHeap).1.mpr rfl,
   (c5_resolve_orphan sampleView liveHeap).2 liveTexture rfl⟩

/-- Claim C6 counterexample: with surface binding succeeding but an empty
supported-format list, `SwapChain::new` panics (`cap.formats[0]` indexes out
of bounds) instead of failing with `Unavailable` — refuting "never panics,
including when the supported format list is empty". -/
theorem c6_empty_formats_panics :
    SwapChain.new (.ok 0) ([] : List TextureFormat) 1 ⟨800, 600⟩ =
      .fatal "index out of bounds: the len is 0 but the index is 0" := rfl

/-- Claim C6 as amended: when the supported-format list is non-empty, creation
with a bound surface succeeds with the list's first entry as the working
format and the window's current extent as the recorded initial size (the
surface is not configured), and a surface-binding failure yields
`Unavailable`; only an empty format list panics. -/
theorem c6_new_first_format_or_unavailable (surfaceId windowId : Nat)
    (f : TextureFormat) (rest : List TextureFormat) (msg : String) (inner : PhysicalSize) :
    SwapChain.new (.ok surfaceId) (f :: rest) windowId inner =
      .ok { surface := surfaceId, surface_format := f, window := windowId, size := inner }
    ∧ SwapChain.new (.error msg) (f :: rest) windowId inner =
      .err (.Unavailable ("Failed to create surface " ++ msg)) :=
  ⟨rfl, rfl⟩

/-- Claim C7: `configure_surface extent` sets the recorded size to exactly
`extent`, leaves the surface handle, the chosen format and the window
reference unchanged, and the configuration handed to the driver carries the
fixed options: render-attachment usage, the chosen format, the sRGB-aliased
view format, automatic alpha mode, the extent's dimensions, frame latency 2,
and automatic vsync. -/
theorem c7_configure_surface_fixed_options (sc : SwapChain) (extent : PhysicalSize) :
    (sc.configure_surface extent).fst.size = extent
    ∧ (sc.configure_surface extent).fst.surface_format = sc.surface_format
    ∧ (sc.configure_surface extent).fst.window = sc.window
    ∧ (sc.configure_surface extent).fst.surface = sc.surface
    ∧ (sc.configure_surface extent).snd.usage = TextureUsages.RENDER_ATTACHMENT
    ∧ (sc.configure_surface extent).snd.format = sc.surface_format
    ∧ (sc.configure_surface extent).snd.view_formats = [sc.surface_format.add_srgb_suffix]
    ∧ (sc.configure_surface extent).snd.alpha_mode = .Auto
    ∧ (sc.configure_surface extent).snd.width = extent.width
    ∧ (sc.configure_surface extent).snd.height = extent.height
    ∧ (sc.configure_surface extent).snd.desired_maximum_frame_latency = 2
    ∧ (sc.configure_surface extent).snd.present_mode = .AutoVsync := by
  exact ⟨rfl, rfl, rfl, rfl, rfl, rfl, rfl, rfl, rfl, rfl, rfl, rfl⟩

/-- Claim C8: the requested byte size is a pure, deterministic function of the
create-info's format, extent and mip count — create-infos agreeing on those
yield equal sizes — and the created texture stores exactly
`create_info.request_size()`. -/
theorem c8_request_size_pure (a b : TextureCreateInfo) (name : String) (handle : Nat)
    (hf : a.format = b.format) (he : a.extent = b.extent) (_hm : a.num_mips = b.num_mips) :
    a.request_size = b.request_size
    ∧ (Texture.new a name handle).info.base_info.request_size = a.request_size := by
  refine ⟨?_, rfl⟩
  simp [TextureCreateInfo.request_size, hf, he]

/-- Witness for C8 at a concrete create-info. -/
theorem c8_request_size_pure_witness :
    (⟨⟨4, 4, 1⟩, .Rgba8Unorm, 1⟩ : TextureCreateInfo).request_size =
      (⟨⟨4, 4, 1⟩, .Rgba8Unorm, 1⟩ : TextureCreateInfo).request_size
    ∧ (Texture.new ⟨⟨4, 4, 1⟩, .Rgba8Unorm, 1⟩ "sample" 0).info.base_info.request_size =
      (⟨⟨4, 4, 1⟩, .Rgba8Unorm, 1⟩ : TextureCreateInfo).request_size :=
  c8_request_size_pure ⟨⟨4, 4, 1⟩, .Rgba8Unorm, 1⟩ ⟨⟨4, 4, 1⟩, .Rgba8Unorm, 1⟩
    "sample" 0 rfl rfl rfl

/-- Claim C9: a resize event carrying extent `E` while a swapchain exists
reconfigures that swapchain with exactly `E` and produces only the surface
configuration effect — no render, no redraw request, window unchanged; with
no swapchain, the event changes nothing. -/
theorem c9_resize_configures (e : Engine) (extent : PhysicalSize)
    (acquire : Except String Unit) :
    (∀ sc, e.swapchain = some sc →
        Engine.window_event e acquire (.resized extent) =
          .ok ({ e with swapchain := some (sc.configure_surface extent).fst },
               [.surfaceConfigure (sc.configure_surface extent).snd]))
    ∧ (e.swapchain = none →
        Engine.window_event e acquire (.resized extent) = .ok (e, [])) := by
  refine ⟨?_, ?_⟩
  · intro sc hsc
    simp [Engine.window_event, hsc]
  · intro hn
    simp [Engine.window_event, hn]

/-- Witness for C9: a renderable engine resized to 1024×768 reconfigures with
that extent and nothing else; a swapchain-less engine is unchanged. -/
theorem c9_resize_configures_witness :
    Engine.window_event renderableEngine (.ok ()) (.resized ⟨1024, 768⟩) =
      .ok ({ renderableEngine with
               swapchain := some (scConfigured800.configure_surface ⟨1024, 768⟩).fst },
           [.surfaceConfigure (scConfigured800.configure_surface ⟨1024, 768⟩).snd])
    ∧ Engine.window_event freshEngine (.ok ()) (.resized ⟨1024, 768⟩) =
      .ok (freshEngine, []) :=
  ⟨(c9_resize_configures renderableEngine ⟨1024, 768⟩ (.ok ())).1 scConfigured800 rfl,
   (c9_resize_configures freshEngine ⟨1024, 768⟩ (.ok ())).2 rfl⟩

/-- Claim C10: `Engine::render` called with the window or the swapchain absent
returns `Err(DeviceError::Unexpected)` immediately — the outcome carries no
GPU-submission or presentation effects, and the source writes no engine
field. -/
theorem c10_render_unready (e : Engine) (acquire : Except String Unit)
    (h : e.window = none ∨ e.swapchain = none) :
    e.render acquire = .err .Unexpected := by
  cases h with
  | inl hw => simp [Engine.render, hw]
  | inr hs =>
    cases hw : e.window with
    | none => simp [Engine.render, hw]
    | some w => simp [Engine.render, hw, hs]

/-- Witness for C10: the fresh engine (no window, no swapchain) renders to
`Err(Unexpected)`. -/
theorem c10_render_unready_witness :
    freshEngine.render (.ok ()) = .err .Unexpected :=
  c10_render_unready freshEngine (.ok ()) (Or.inl rfl)

end P0
